import Mathlib

/-!
# HeliX relay server — verification of the connection/relay engine

Shallow embedding of `server/server.py` together with the constants of
`server/config.py`.  Connections are abstracted as natural numbers and
wall-clock timestamps as rationals.

The units of this source that can actually execute are embedded directly
from their code: the registration handler (`handle_registration`,
lines 101–150), the disconnect cleanup (`unregister_client`,
lines 154–214) and the two sliding-window rate limiters (lines 242–264
and 274–292).

One receive-loop iteration past the rate gate is embedded as
`stagedProcessMessage` exactly as this source executes it: a frame that
fails the JSON/shape checks of lines 299–329 merely `continue`s the
loop, while every frame that passes them makes the handler execute the
nested helper definitions of lines 337–343, and evaluating the default
argument `config.MAX_ENCRYPTED_DATA_LENGTH` at line 342 raises
`AttributeError` — `config.py` defines no such constant — which the
`except Exception` at line 518 turns into a connection close (cleanup
then runs `unregister_client` once, in the `finally` block).  The
validation dispatch, registration routing, relaying and the error
replies of lines 346–508 are therefore unreachable in this program: a
processed message never changes a registry and never emits a frame.
-/

namespace HeliX

/-- Abstract stand-in for a `websockets` connection object. -/
abbrev Conn := Nat

/-- A JSON value as far as the server could inspect payload fields:
strings, integers, other numbers, booleans, `null`, and opaque
arrays/objects. -/
inductive JValue where
  | jstr (s : String)
  | jint (n : Int)
  | jnum (q : ℚ)
  | jbool (b : Bool)
  | jnull
  | jarr
  | jobj
deriving DecidableEq, Repr

/-- What the server writes to a socket: either an inbound text relayed
verbatim (`target_websocket.send(message)`, line 462), or a
server-constructed JSON message `{"type": t, "payload": p}` built by
`send_json` (lines 69–97). -/
inductive Frame where
  | raw (s : String)
  | json (t : ℚ) (payload : List (String × JValue))
deriving DecidableEq, Repr

/-- The global registries of `server.py`: `CLIENTS` (line 42),
`CONNECTIONS` (line 47) and `ACTIVE_SESSIONS` (line 65). -/
structure ServerState where
  clients : String → Option Conn
  connections : Conn → Option String
  sessions : String → Option String

/-- `d[k] = v` on a dictionary modelled as a function. -/
def fupd {α β : Type} [DecidableEq α] (m : α → Option β) (k : α) (v : β) : α → Option β :=
  fun x => if x = k then some v else m x

/-- `del d[k]` / `d.pop(k, None)`'s effect on a dictionary modelled as a function. -/
def ferase {α β : Type} [DecidableEq α] (m : α → Option β) (k : α) : α → Option β :=
  fun x => if x = k then none else m x

/-- ASCII apostrophe, used inside server-built message texts. -/
def sq : String := String.singleton (Char.ofNat 39)

-- ## Configuration constants (`server/config.py`)

/-- `config.MAX_CONNECTIONS_PER_IP` (config.py line 42). -/
def MAX_CONNECTIONS_PER_IP : ℕ := 10

/-- `config.CONNECTION_WINDOW_SECONDS` (config.py line 44). -/
def CONNECTION_WINDOW_SECONDS : ℚ := 60

/-- `config.MAX_MESSAGES_PER_CONNECTION` (config.py line 48). -/
def MAX_MESSAGES_PER_CONNECTION : ℕ := 20

/-- `config.MESSAGE_WINDOW_SECONDS` (config.py line 50). -/
def MESSAGE_WINDOW_SECONDS : ℚ := 5

/-- `config.MAX_FILE_SIZE_BYTES = 100 * 1024 * 1024` (config.py line 58).
(`config.MAX_ENCRYPTED_DATA_LENGTH`, by contrast, is *not* defined in
config.py, which is what makes server.py line 342 raise.) -/
def MAX_FILE_SIZE_BYTES : ℤ := 100 * 1024 * 1024

-- ## Identifier grammar (`VALID_IDENTIFIER_REGEX`, server.py line 34)

/-- `[a-zA-Z0-9]` — ASCII letters and digits (`Char.isAlphanum` is ASCII-only). -/
def identStartChar (c : Char) : Bool := c.isAlphanum

/-- `[a-zA-Z0-9_-]`. -/
def identChar (c : Char) : Bool := c.isAlphanum || c = '_' || c = '-'

/-- Whether a character list is a word of `[a-zA-Z0-9][a-zA-Z0-9_-]{2,29}`
(hence 3–30 characters of the restricted alphabet). -/
def identCore (l : List Char) : Bool :=
  match l with
  | [] => false
  | c :: rest => identStartChar c && decide (2 ≤ rest.length) && decide (rest.length ≤ 29)
      && rest.all identChar

/-- The mathematical language of the anchored pattern
`^[A-Za-z0-9][A-Za-z0-9_-]{2,29}$` as the spec states it: the whole
string is one word of the grammar, nothing more. -/
def anchoredIdentMatch (s : String) : Bool := identCore s.data

/-- `VALID_IDENTIFIER_REGEX.match(identifier)` truthiness with Python
semantics (server.py line 119).  In Python `$` "matches at the end of the
string or just before the newline at the end of the string", so a word of
the grammar followed by one final `'\n'` also matches. -/
def pyIdentMatch (s : String) : Bool :=
  identCore s.data ||
    (match s.data.getLast? with
     | some c => c = '\n' && identCore s.data.dropLast
     | none => false)

-- ## Registration (`handle_registration`, server.py lines 101–150)

/-- `handle_registration(websocket, identifier)`: regex gate, then
`identifier in CLIENTS`, then `websocket in CONNECTIONS`, else insert both
directions; each failure acknowledged with a type 0.2 frame and success
with type 0.1. -/
def handle_registration (st : ServerState) (c : Conn) (ident : String) :
    ServerState × List (Conn × Frame) :=
  if !pyIdentMatch ident then
    (st, [(c, Frame.json (1/5)
      [("identifier", .jstr ident),
       ("error", .jstr "Invalid identifier format (3-30 chars, letters, numbers, _, -).")])])
  else if (st.clients ident).isSome then
    (st, [(c, Frame.json (1/5)
      [("identifier", .jstr ident), ("error", .jstr "Identifier already taken.")])])
  else
    match st.connections c with
    | some existing =>
        (st, [(c, Frame.json (1/5)
          [("identifier", .jstr ident),
           ("error", .jstr ("You are already registered as " ++ sq ++ existing ++ sq ++ "."))])])
    | none =>
        ({st with clients := fupd st.clients ident c,
                  connections := fupd st.connections c ident},
         [(c, Frame.json (1/10)
           [("identifier", .jstr ident), ("message", .jstr "Registration successful.")])])

-- ## One receive-loop iteration (server.py lines 298–508)

/-- One inbound WebSocket text frame: the raw text, and the result of
`json.loads` plus the shape checks of lines 299–329 (`none` when any of
them fails, in which case the loop just `continue`s). -/
structure InMsg where
  raw : String
  parsed : Option (ℚ × List (String × JValue))

/-- One iteration of the receive loop past the rate-limit gate, as the
staged source actually executes it.  A frame failing the shape checks of
lines 299–329 is ignored and the loop continues (result `false`).  A
frame that passes them reaches the nested helper definitions of lines
337–343; executing the `def` at line 342 evaluates its default argument
`config.MAX_ENCRYPTED_DATA_LENGTH`, and as `config.py` defines no such
attribute this raises `AttributeError` *before* any of the per-type
validation or routing of lines 346–508 runs.  The exception propagates
to the `except Exception` handler at line 518: nothing is sent on any
socket, no registry changes, the receive loop is abandoned and the
connection closes (result `true`; the `finally` block's cleanup is
`unregister_client`, modelled separately).  So an iteration returns the
unchanged registries, an empty list of delivered frames, and whether the
handler aborted. -/
def stagedProcessMessage (st : ServerState) (m : InMsg) :
    ServerState × List (Conn × Frame) × Bool :=
  match m.parsed with
  | none => (st, [], false)
  | some _ => (st, [], true)

-- ## Disconnect cleanup (`unregister_client`, server.py lines 154–214)

/-- Lines 177–181: `peer_id = ACTIVE_SESSIONS.pop(identifier, None)` and,
when `peer_id` is truthy and still present, `ACTIVE_SESSIONS.pop(peer_id)` —
with no check that the peer's entry points back at `identifier`. -/
def popSession (m : String → Option String) (ident : String) :
    String → Option String :=
  match m ident with
  | none => m
  | some peer =>
    let s1 := ferase m ident
    if peer ≠ "" ∧ (s1 peer).isSome then ferase s1 peer else s1

/-- Lines 186–203: the best-effort type 9 notification to the popped peer,
emitted only when the peer id is truthy and the peer is still in `CLIENTS`
(looked up *before* the registries are purged). -/
def popEvents (st : ServerState) (ident : String) : List (Conn × Frame) :=
  match st.sessions ident with
  | none => []
  | some peer =>
    if peer ≠ "" then
      match st.clients peer with
      | some pw => [(pw, Frame.json 9
          [("targetId", .jstr peer), ("senderId", .jstr ident),
           ("message", .jstr (ident ++ " disconnected."))])]
      | none => []
    else []

/-- `unregister_client(websocket)` (lines 154–214): if registered, pop the
session pairing and notify the peer best-effort, then delete both registry
directions; a never-registered connection is an idempotent no-op. -/
def unregister_client (st : ServerState) (c : Conn) :
    ServerState × List (Conn × Frame) :=
  match st.connections c with
  | none => (st, [])
  | some ident =>
    ({ clients := ferase st.clients ident,
       connections := ferase st.connections c,
       sessions := popSession st.sessions ident }, popEvents st ident)

-- ## Rate limiting (server.py lines 242–264 and 274–292)

/-- The sliding-window check both limiter scopes perform: filter the
recorded timestamps to those strictly younger than the window, refuse
without recording when at least the maximum survive, otherwise record
`now` and allow. -/
def rateCheck (maxCount : ℕ) (window : ℚ) (ts : List ℚ) (now : ℚ) :
    Bool × List ℚ :=
  let valid := ts.filter (fun t => now - t < window)
  if maxCount ≤ valid.length then (false, valid) else (true, valid ++ [now])

/-- The per-IP connection gate (lines 242–264):
limit `MAX_CONNECTIONS_PER_IP` within `CONNECTION_WINDOW_SECONDS`. -/
def allow_connection : List ℚ → ℚ → Bool × List ℚ :=
  rateCheck MAX_CONNECTIONS_PER_IP CONNECTION_WINDOW_SECONDS

/-- The per-connection message gate (lines 274–292):
limit `MAX_MESSAGES_PER_CONNECTION` within `MESSAGE_WINDOW_SECONDS`. -/
def allow_message : List ℚ → ℚ → Bool × List ℚ :=
  rateCheck MAX_MESSAGES_PER_CONNECTION MESSAGE_WINDOW_SECONDS

/-- A sequence of checks against one key, threading the recorded-timestamp
list exactly as the handler does. -/
def runChecks (maxCount : ℕ) (window : ℚ) (ts : List ℚ) : List ℚ → List Bool
  | [] => []
  | now :: rest =>
    let r := rateCheck maxCount window ts now
    r.1 :: runChecks maxCount window r.2 rest

-- ## Session-map symmetry and reachability

/-- The spec's session invariant: A maps to B iff B maps to A. -/
def Symm (m : String → Option String) : Prop :=
  ∀ a b, m a = some b ↔ m b = some a

/-- The empty registries the server starts with. -/
def initialState : ServerState :=
  ⟨fun _ => none, fun _ => none, fun _ => none⟩

/-- Registry states reachable in the staged program: from empty
registries, any interleaving of processed inbound frames
(`stagedProcessMessage`) and connection cleanups (`unregister_client`).
The two rate gates touch only the timestamp windows, never these
registries. -/
inductive StagedReach : ServerState → Prop where
  | init : StagedReach initialState
  | msg : ∀ st m, StagedReach st → StagedReach (stagedProcessMessage st m).1
  | disc : ∀ st c, StagedReach st → StagedReach (unregister_client st c).1

-- ## Lemmas

/-- In the staged program `ACTIVE_SESSIONS` is never written — message
processing aborts at line 342 before the session updates of lines 464–484
can run, and cleanup only removes entries — so every reachable session
map is empty. -/
lemma stagedReach_sessions_none {st : ServerState} (h : StagedReach st) :
    ∀ x, st.sessions x = none := by
  induction h with
  | init => intro x; rfl
  | msg st m _ ih =>
    intro x
    unfold stagedProcessMessage
    cases m.parsed <;> exact ih x
  | disc st c _ ih =>
    intro x
    unfold unregister_client
    cases hc : st.connections c with
    | none => exact ih x
    | some ident =>
      show popSession st.sessions ident x = none
      unfold popSession
      rw [ih ident]
      exact ih x

lemma filter_window_all {W : ℚ} (ts : List ℚ) (now : ℚ)
    (h : ∀ x ∈ ts, now - x < W) :
    ts.filter (fun t => now - t < W) = ts := by
  rw [List.filter_eq_self]
  intro a ha
  exact decide_eq_true (h a ha)

lemma runChecks_window : ∀ (N : ℕ) (W : ℚ) (l ts : List ℚ), l ≠ [] →
    ts.length + l.length = N + 1 →
    (∀ x ∈ ts ++ l, ∀ y ∈ ts ++ l, x - y < W) →
    runChecks N W ts l = List.replicate (l.length - 1) true ++ [false] := by
  intro N W l
  induction l with
  | nil => intro ts h; exact absurd rfl h
  | cons now rest ih =>
    intro ts _ hlen hspread
    have hnow : now ∈ ts ++ now :: rest := by simp
    have hfilter : ts.filter (fun t => now - t < W) = ts :=
      filter_window_all ts now
        (fun x hx => hspread now hnow x (by simp [hx]))
    cases rest with
    | nil =>
      have hN : ts.length = N := by simpa using hlen
      simp only [runChecks, rateCheck, hfilter]
      rw [if_pos (le_of_eq hN.symm)]
      simp [runChecks]
    | cons r2 rest2 =>
      have hlt : ts.length < N := by
        simp only [List.length_cons] at hlen
        omega
      have hrate : rateCheck N W ts now = (true, ts ++ [now]) := by
        simp only [rateCheck, hfilter]
        rw [if_neg (not_le.mpr hlt)]
      have hstep : runChecks N W ts (now :: r2 :: rest2) =
          (rateCheck N W ts now).1 ::
            runChecks N W (rateCheck N W ts now).2 (r2 :: rest2) := rfl
      rw [hstep, hrate]
      have hsub : ∀ x ∈ (ts ++ [now]) ++ r2 :: rest2,
          ∀ y ∈ (ts ++ [now]) ++ r2 :: rest2, x - y < W := by
        intro x hx y hy
        refine hspread x ?_ y ?_ <;> simp at hx hy ⊢ <;> tauto
      have h2 := ih (ts ++ [now]) (by simp)
        (by simp only [List.length_append, List.length_cons,
              List.length_nil] at hlen ⊢; omega) hsub
      show true :: runChecks N W (ts ++ [now]) (r2 :: rest2) =
        List.replicate ((now :: r2 :: rest2).length - 1) true ++ [false]
      rw [h2]
      simp [List.replicate_succ]

lemma popSession_removes (m : String → Option String) (A B : String)
    (hs : m A = some B) (hB : B ≠ "") :
    popSession m A B = none ∧ popSession m A A = none := by
  unfold popSession
  rw [hs]
  simp only []
  by_cases hBA : B = A
  · have hcond : ¬(B ≠ "" ∧ (ferase m A B).isSome) := by
      rintro ⟨-, hsome⟩
      rw [hBA] at hsome
      simp [ferase] at hsome
    rw [if_neg hcond]
    constructor
    · rw [hBA]; simp [ferase]
    · simp [ferase]
  · by_cases hSome : (ferase m A B).isSome
    · rw [if_pos ⟨hB, hSome⟩]
      have hAB : A ≠ B := fun h => hBA h.symm
      constructor
      · simp [ferase]
      · simp [ferase, hAB]
    · have hcond : ¬(B ≠ "" ∧ (ferase m A B).isSome = true) := by
        rintro ⟨-, hs2⟩
        exact hSome hs2
      rw [if_neg hcond]
      constructor
      · exact Option.not_isSome_iff_eq_none.mp hSome
      · simp [ferase]

-- ## Claim C1

/-- C1: the active-session map is symmetric in every reachable state of
the staged server — A maps to B iff B maps to A — and in particular after
any sequence of processed envelopes and disconnects.  In this source the
map is in fact never written: every shape-valid frame (any "accept" or
"end" included) raises `AttributeError` at server.py line 342 before the
session updates of lines 464–484 can run, so no envelope is ever relayed;
the only registry-touching operation that executes, disconnect cleanup,
only removes entries.  Every reachable session map is therefore empty,
and the symmetry invariant holds. -/
theorem C1_session_symmetry (st : ServerState) (h : StagedReach st) :
    Symm st.sessions := by
  intro a b
  rw [stagedReach_sessions_none h a, stagedReach_sessions_none h b]
  simp

/-- C1, witness: a concrete run — one shape-valid registration frame
(which aborts its connection at line 342) followed by that connection's
cleanup — reaches a state whose session map the theorem proves
symmetric. -/
theorem C1_session_symmetry_witness :
    Symm (unregister_client
      (stagedProcessMessage initialState
        ⟨"r0", some (0, [("identifier", JValue.jstr "AAA")])⟩).1 0).1.sessions :=
  C1_session_symmetry _
    (StagedReach.disc _ 0 (StagedReach.msg _ _ StagedReach.init))

-- ## Claim C2

/-- C2: the identifier gate of `handle_registration` deviates from the
spec's anchored grammar `^[A-Za-z0-9][A-Za-z0-9_-]{2,29}$`.  Because the
code uses `re.match(...)` whose `$` also matches just before a final
newline, the identifier `"abc\n"` — *outside* the anchored language —
passes the regex gate and registers successfully on an empty registry:
both map directions are inserted and the success ack (type 0.1) is sent.
The code contradicts its own comments ("Asserts position at the end of
the string", "Ensures identifiers are 3-30 characters long and use a
restricted character set", lines 29–34). -/
theorem C2_newline_identifier_registers :
    pyIdentMatch "abc\n" = true ∧
    anchoredIdentMatch "abc\n" = false ∧
    (handle_registration initialState 0 "abc\n").1.clients "abc\n" = some 0 ∧
    (handle_registration initialState 0 "abc\n").1.connections 0 = some "abc\n" ∧
    (handle_registration initialState 0 "abc\n").2 =
      [(0, Frame.json (1/10)
        [("identifier", .jstr "abc\n"),
         ("message", .jstr "Registration successful.")])] := by
  exact ⟨by decide, by decide, by decide, by decide, rfl⟩

-- ## Claim C3

/-- C3: each rate-limiter scope prunes the entries older than its window,
refuses without recording when at least the configured maximum survive,
and otherwise records and allows (that is `rateCheck`, of which the
per-IP connection gate and the per-connection message gate are the two
configured instances); consequently any `N+1` checks of one key that all
lie within one window, starting from a fresh key, allow the first `N` and
refuse exactly the `(N+1)`-th, and once the whole window has elapsed past
every recorded entry a check succeeds again. -/
theorem C3_rate_limit_windowing :
    (∀ (N : ℕ) (W : ℚ) (l : List ℚ), l.length = N + 1 →
      (∀ x ∈ l, ∀ y ∈ l, x - y < W) →
      runChecks N W [] l = List.replicate N true ++ [false]) ∧
    (∀ (N : ℕ) (W : ℚ) (ts : List ℚ) (now : ℚ), 1 ≤ N →
      (∀ x ∈ ts, W ≤ now - x) → (rateCheck N W ts now).1 = true) ∧
    allow_connection = rateCheck MAX_CONNECTIONS_PER_IP CONNECTION_WINDOW_SECONDS ∧
    allow_message = rateCheck MAX_MESSAGES_PER_CONNECTION MESSAGE_WINDOW_SECONDS := by
  refine ⟨?_, ?_, rfl, rfl⟩
  · intro N W l hlen hspread
    have hne : l ≠ [] := by
      intro h
      rw [h] at hlen
      exact absurd hlen.symm (Nat.succ_ne_zero N)
    have := runChecks_window N W l [] hne (by simpa using hlen) (by simpa using hspread)
    rw [this, hlen]
    rfl
  · intro N W ts now hN hold
    have hfilter : ts.filter (fun t => now - t < W) = [] := by
      rw [List.filter_eq_nil_iff]
      intro a ha
      simp only [decide_eq_true_eq]
      exact not_lt.mpr (hold a ha)
    simp only [rateCheck, hfilter]
    rw [if_neg]
    simp only [List.length_nil]
    omega

/-- C3, witness: with limit 2 and window 10, checks at times 0, 1, 2 give
allow, allow, refuse; a later check at time 20 (window fully elapsed)
succeeds again. -/
theorem C3_rate_limit_windowing_witness :
    runChecks 2 10 [] [0, 1, 2] = List.replicate 2 true ++ [false] ∧
    (rateCheck 2 10 [0, 1, 2] 20).1 = true :=
  ⟨C3_rate_limit_windowing.1 2 10 [0, 1, 2] (by decide)
    (by intro x hx y hy; fin_cases hx <;> fin_cases hy <;> norm_num),
   C3_rate_limit_windowing.2.1 2 10 [0, 1, 2] 20 (by norm_num)
    (by intro x hx; fin_cases hx <;> norm_num)⟩

-- ## Claim C4

/-- C4: the relay at server.py line 462 is dead code in this source, so
no envelope is ever "successfully relayed" at all — the claimed
byte-identical delivery never occurs.  Part 1: a processed receive-loop
iteration delivers no frame whatsoever to anyone (shape failures
`continue`; shape-valid frames raise `AttributeError` at line 342 before
validation or routing).  Part 2: concretely, even granting a
counterfactual registry with sender AAA and target BBB registered, a
shape-valid type-8 envelope yields no delivery, no state change, and an
aborted handler. -/
theorem C4_relay_never_occurs :
    (∀ (st : ServerState) (m : InMsg), (stagedProcessMessage st m).2.1 = []) ∧
    stagedProcessMessage
      ⟨fun x => if x = "AAA" then some 0 else if x = "BBB" then some 1 else none,
       fun n => if n = 0 then some "AAA" else if n = 1 then some "BBB" else none,
       fun _ => none⟩
      ⟨"exact-bytes", some (8,
        [("targetId", .jstr "BBB"), ("senderId", .jstr "AAA"),
         ("iv", .jstr "QUJD"), ("data", .jstr "QUJD")])⟩ =
      (⟨fun x => if x = "AAA" then some 0 else if x = "BBB" then some 1 else none,
        fun n => if n = 0 then some "AAA" else if n = 1 then some "BBB" else none,
        fun _ => none⟩, [], true) := by
  refine ⟨?_, rfl⟩
  intro st m
  unfold stagedProcessMessage
  cases m.parsed <;> rfl

-- ## Claim C5

/-- C5: the "unavailable target" replies of server.py lines 486–504 are
dead code in this source.  Concretely, with a counterfactual registry in
which AAA is a registered sender, a shape-valid type-8 envelope naming
the absent target BBB elicits *no* type -1 envelope (and no frame at
all): the handler raises `AttributeError` at line 342 before validation
or routing and the connection closes. -/
theorem C5_unavailable_reply_never_sent :
    stagedProcessMessage
      ⟨fun x => if x = "AAA" then some 0 else none,
       fun n => if n = 0 then some "AAA" else none,
       fun _ => none⟩
      ⟨"m8", some (8, [("targetId", .jstr "BBB"), ("senderId", .jstr "AAA"),
        ("iv", .jstr "QUJD"), ("data", .jstr "QUJD")])⟩ =
      (⟨fun x => if x = "AAA" then some 0 else none,
        fun n => if n = 0 then some "AAA" else none,
        fun _ => none⟩, [], true) := rfl

-- ## Claim C6

/-- C6: when A's connection closes while A and B are paired in the session
map, both session entries are removed, A's registry entries are removed
(so A's identifier is immediately available: a fresh connection can
register it at once), and B — if still connected — is sent exactly one
type 9 session-end envelope naming A as the disconnected sender; if B is
no longer in `CLIENTS` the notification is silently skipped and nothing
is emitted at all. -/
theorem C6_disconnect_notification (st : ServerState) (c : Conn) (A B : String)
    (hc : st.connections c = some A) (hAB : st.sessions A = some B)
    (hBA : st.sessions B = some A) (hB : B ≠ "") :
    ((unregister_client st c).1.sessions A = none ∧
     (unregister_client st c).1.sessions B = none ∧
     (unregister_client st c).1.clients A = none ∧
     (unregister_client st c).1.connections c = none) ∧
    (∀ pw, st.clients B = some pw →
      (unregister_client st c).2 =
        [(pw, Frame.json 9
          [("targetId", .jstr B), ("senderId", .jstr A),
           ("message", .jstr (A ++ " disconnected."))])]) ∧
    (st.clients B = none → (unregister_client st c).2 = []) ∧
    (∀ c2 : Conn, pyIdentMatch A = true →
      (unregister_client st c).1.connections c2 = none →
      (handle_registration (unregister_client st c).1 c2 A).1.clients A = some c2 ∧
      (handle_registration (unregister_client st c).1 c2 A).1.connections c2 = some A) := by
  have hstate : (unregister_client st c).1 =
      { clients := ferase st.clients A, connections := ferase st.connections c,
        sessions := popSession st.sessions A } := by
    unfold unregister_client
    rw [hc]
  have hev : (unregister_client st c).2 = popEvents st A := by
    unfold unregister_client
    rw [hc]
  have hpop := popSession_removes st.sessions A B hAB hB
  have hcli : (unregister_client st c).1.clients A = none := by
    rw [hstate]
    simp [ferase]
  refine ⟨⟨?_, ?_, hcli, ?_⟩, ?_, ?_, ?_⟩
  · rw [hstate]; exact hpop.2
  · rw [hstate]; exact hpop.1
  · rw [hstate]; simp [ferase]
  · intro pw hpw
    rw [hev]
    unfold popEvents
    rw [hAB]
    simp only []
    rw [if_pos hB, hpw]
  · intro hnone
    rw [hev]
    unfold popEvents
    rw [hAB]
    simp only []
    rw [if_pos hB, hnone]
  · intro c2 hpy hc2
    unfold handle_registration
    rw [hpy]
    simp only [Bool.not_true]
    rw [if_neg (by simp : ¬(false = true))]
    rw [hcli]
    simp only [Option.isSome_none]
    rw [if_neg (by simp : ¬(false = true))]
    rw [hc2]
    simp only []
    exact ⟨by simp [fupd], by simp [fupd]⟩

/-- C6, witness: AAA (connection 0) and BBB (connection 1) are paired;
closing connection 0 emits exactly one type 9 frame to connection 1
naming AAA, clears both session entries, and a fresh connection 5 can
immediately re-register AAA. -/
theorem C6_disconnect_notification_witness :
    (unregister_client
      ⟨fun x => if x = "AAA" then some 0 else if x = "BBB" then some 1 else none,
       fun n => if n = 0 then some "AAA" else if n = 1 then some "BBB" else none,
       fun x => if x = "AAA" then some "BBB" else
         if x = "BBB" then some "AAA" else none⟩ 0).2 =
      [(1, Frame.json 9
        [("targetId", .jstr "BBB"), ("senderId", .jstr "AAA"),
         ("message", .jstr "AAA disconnected.")])] ∧
    (unregister_client
      ⟨fun x => if x = "AAA" then some 0 else if x = "BBB" then some 1 else none,
       fun n => if n = 0 then some "AAA" else if n = 1 then some "BBB" else none,
       fun x => if x = "AAA" then some "BBB" else
         if x = "BBB" then some "AAA" else none⟩ 0).1.sessions "BBB" = none ∧
    (handle_registration
      (unregister_client
        ⟨fun x => if x = "AAA" then some 0 else if x = "BBB" then some 1 else none,
         fun n => if n = 0 then some "AAA" else if n = 1 then some "BBB" else none,
         fun x => if x = "AAA" then some "BBB" else
           if x = "BBB" then some "AAA" else none⟩ 0).1 5 "AAA").1.clients "AAA" =
      some 5 := by
  have h := C6_disconnect_notification
    ⟨fun x => if x = "AAA" then some 0 else if x = "BBB" then some 1 else none,
     fun n => if n = 0 then some "AAA" else if n = 1 then some "BBB" else none,
     fun x => if x = "AAA" then some "BBB" else
       if x = "BBB" then some "AAA" else none⟩ 0 "AAA" "BBB"
    (by decide) (by decide) (by decide) (by decide)
  exact ⟨h.2.1 1 (by decide), h.1.2.1, (h.2.2.2 5 (by decide) (by decide)).1⟩

-- ## Claim C7

/-- C7: the oversize check and its type-17 reply (server.py lines
402–405) are dead code in this source.  Concretely, a shape-valid
type-12 request whose `fileSize` exceeds `MAX_FILE_SIZE_BYTES` is indeed
never forwarded — but the sender receives *no* type-17 envelope either
(and no frame at all): the handler raises `AttributeError` at line 342
before the type-12 validation branch runs, and the connection closes. -/
theorem C7_oversize_reply_never_sent :
    MAX_FILE_SIZE_BYTES < 104857601 ∧
    stagedProcessMessage initialState
      ⟨"big", some (12, [("targetId", .jstr "AAA"), ("transferId", .jstr "t1"),
        ("fileName", .jstr "f.bin"), ("fileType", .jstr "bin"),
        ("fileSize", .jint 104857601)])⟩ =
      (initialState, [], true) :=
  ⟨by norm_num [MAX_FILE_SIZE_BYTES], rfl⟩

-- ## Claim C8

/-- C8: the warn-and-discard path for non-registration envelopes from
unregistered senders (server.py lines 505–508) is dead code in this
source, and so is registration itself.  Concretely, from the empty
registries an unregistered connection's shape-valid type-8 envelope is
not discarded-with-a-warning while the connection lives on — the handler
raises `AttributeError` at line 342 and the connection closes (first
conjunct, abort flag `true`); and a type-0 registration request has no
effect either, for the same reason (second conjunct), so not even type 0
can act as a registration attempt. -/
theorem C8_discard_path_never_runs :
    stagedProcessMessage initialState
      ⟨"m8", some (8, [("targetId", .jstr "BBB"), ("senderId", .jstr "AAA"),
        ("iv", .jstr "QUJD"), ("data", .jstr "QUJD")])⟩ =
      (initialState, [], true) ∧
    stagedProcessMessage initialState
      ⟨"r0", some (0, [("identifier", .jstr "AAA")])⟩ =
      (initialState, [], true) :=
  ⟨rfl, rfl⟩

-- ## Claim C9

/-- C9: the claimed passthrough of unknown numeric types never happens in
this source — the validator never runs on any envelope.  Concretely, even
granting a counterfactual registry with sender AAA and target BBB
registered, a shape-valid envelope of type 18 (outside the 0–17 table) is
not relayed: the handler raises `AttributeError` at line 342 — before the
per-type dispatch could fall through and before line 462 could forward
the frame — and the connection closes with nothing delivered. -/
theorem C9_unknown_type_never_relayed :
    stagedProcessMessage
      ⟨fun x => if x = "AAA" then some 0 else if x = "BBB" then some 1 else none,
       fun n => if n = 0 then some "AAA" else if n = 1 then some "BBB" else none,
       fun _ => none⟩
      ⟨"unknown-type-frame", some (18, [("targetId", .jstr "BBB")])⟩ =
      (⟨fun x => if x = "AAA" then some 0 else if x = "BBB" then some 1 else none,
        fun n => if n = 0 then some "AAA" else if n = 1 then some "BBB" else none,
        fun _ => none⟩, [], true) := rfl

-- ## Claim C10

/-- C10: when a connection registered as A disconnects while the session
map sends A to peer B, cleanup removes B's own entry whenever B has one —
the pop of the peer's entry never checks that it points back to A, so it
is removed even when it names a third identifier (no hypothesis below
constrains where B's entry points).  A's entry is removed as well.
(`B ≠ ""` records that Python skips a falsy — empty — peer id, which the
registration grammar makes unreachable anyway.) -/
theorem C10_peer_entry_popped_unconditionally (st : ServerState) (c : Conn)
    (A B : String) (hc : st.connections c = some A)
    (hs : st.sessions A = some B) (hB : B ≠ "") :
    (unregister_client st c).1.sessions B = none ∧
    (unregister_client st c).1.sessions A = none := by
  unfold unregister_client
  rw [hc]
  simp only []
  exact popSession_removes st.sessions A B hs hB

/-- C10, witness: with sessions AAA ↦ BBB and BBB ↦ CCC (BBB's entry
pointing at a third identifier), disconnecting AAA's connection removes
both AAA's and BBB's entries. -/
theorem C10_peer_entry_popped_unconditionally_witness :
    (unregister_client
      ⟨fun x => if x = "AAA" then some 0 else if x = "BBB" then some 1 else none,
       fun n => if n = 0 then some "AAA" else if n = 1 then some "BBB" else none,
       fun x => if x = "AAA" then some "BBB" else
         if x = "BBB" then some "CCC" else none⟩ 0).1.sessions "BBB" = none ∧
    (unregister_client
      ⟨fun x => if x = "AAA" then some 0 else if x = "BBB" then some 1 else none,
       fun n => if n = 0 then some "AAA" else if n = 1 then some "BBB" else none,
       fun x => if x = "AAA" then some "BBB" else
         if x = "BBB" then some "CCC" else none⟩ 0).1.sessions "AAA" = none :=
  C10_peer_entry_popped_unconditionally _ 0 "AAA" "BBB" (by decide) (by decide)
    (by decide)

end HeliX
